import Mathlib

/-!
Verification of the `voncount` crate (src/lib.rs): two decorators,
`ReadCounter` and `WriteCounter`, that wrap an `io::Read` / `io::Write`
stream and accumulate the number of bytes transferred through them.

Shallow embedding conventions:
* A byte is a `Nat`; a buffer is a `List Nat`.
* The wrapped stream is an abstract state machine.  A read takes the
  stream state and the caller's buffer and returns the new stream state,
  the (possibly rewritten) buffer contents, and either a byte count or an
  error — the state and buffer may change even on error, matching the
  `&mut` receivers in Rust.  A write takes the state and an immutable
  buffer and returns the new state plus a byte count or error.
* `usize` arithmetic: `self.count += size` is documented in the source
  (`# Panics`) to be fatal when the running total would exceed
  `usize::max_value()`; the embedding returns the `Outcome.fatal`
  constructor in that case instead of wrapping.
* Every wrapper operation returns an `Outcome` carrying the resulting
  wrapper state (the wrapped stream is only borrowed, so its state —
  and the wrapper's fields, which the panicking `+=` never assigned —
  survive even a fatal outcome).
-/

/-- Width of `usize` on a 64-bit platform. -/
def USIZE_MAX : Nat := 2 ^ 64 - 1

/-- Result of a wrapper operation: success with a value, propagated error
from the wrapped stream, or a fatal counter-overflow fault.  Each
constructor carries the state left behind. -/
inductive Outcome (σ ε α : Type) where
  | ok (s : σ) (val : α)
  | err (s : σ) (e : ε)
  | fatal (s : σ)
deriving DecidableEq

/-- The state left behind by an operation, whatever its outcome. -/
def Outcome.state {σ ε α : Type} : Outcome σ ε α → σ
  | .ok s _ => s
  | .err s _ => s
  | .fatal s => s

/-- Behaviour of an arbitrary `std::io::Read` implementation: from a
stream state and the caller's buffer, produce the new stream state, the
new buffer contents, and the byte count read or an error. -/
structure ReadModel (ρ ε : Type) where
  read : ρ → List Nat → ρ × List Nat × Except ε Nat

/-- Behaviour of an arbitrary `std::io::Write` implementation. -/
structure WriteModel (ω ε : Type) where
  write : ω → List Nat → ω × Except ε Nat
  flush : ω → ω × Except ε Unit

/-- `pub struct ReadCounter<'a, T>`: the borrowed reader and the running
byte count. -/
structure ReadCounter (ρ : Type) where
  reader : ρ
  count : Nat
deriving DecidableEq

/-- `pub struct WriteCounter<'a, T>`. -/
structure WriteCounter (ω : Type) where
  writer : ω
  count : Nat
deriving DecidableEq

/-- The `Counter` trait: `fn count(&self) -> usize`. -/
class Counter (γ : Type) where
  count : γ → Nat

/-- `impl Counter for ReadCounter`: returns the `count` field. -/
instance : Counter (ReadCounter ρ) := ⟨ReadCounter.count⟩

/-- `impl Counter for WriteCounter`: returns the `count` field. -/
instance : Counter (WriteCounter ω) := ⟨WriteCounter.count⟩

/-- `impl From<&'a mut T> for ReadCounter`: wraps the reader with
`count = 0`.  (`from` is a Lean keyword, hence `fromRef`.) -/
def ReadCounter.fromRef {ρ : Type} (value : ρ) : ReadCounter ρ :=
  { reader := value, count := 0 }

/-- `impl From<&'a mut T> for WriteCounter`. -/
def WriteCounter.fromRef {ω : Type} (value : ω) : WriteCounter ω :=
  { writer := value, count := 0 }

/-- `ReadCounter::read`:
`let size = self.reader.read(buffer)?; self.count += size; Ok(size)`.
One delegated call; on error the error is returned as-is and `count` is
untouched; on success `count` grows by `size` (fatal if that overflows
`usize`) and the same `size` is returned.  The buffer handed back to the
caller is exactly what the wrapped reader left in it. -/
def ReadCounter.read {ρ ε : Type} (m : ReadModel ρ ε) (rc : ReadCounter ρ)
    (buffer : List Nat) : Outcome (ReadCounter ρ × List Nat) ε Nat :=
  match m.read rc.reader buffer with
  | (r', buf', Except.error e) => .err (⟨r', rc.count⟩, buf') e
  | (r', buf', Except.ok size) =>
      if rc.count + size ≤ USIZE_MAX then
        .ok (⟨r', rc.count + size⟩, buf') size
      else
        .fatal (⟨r', rc.count⟩, buf')

/-- `WriteCounter::write`:
`let size = self.writer.write(buffer)?; self.count += size; Ok(size)`. -/
def WriteCounter.write {ω ε : Type} (m : WriteModel ω ε) (wc : WriteCounter ω)
    (buffer : List Nat) : Outcome (WriteCounter ω) ε Nat :=
  match m.write wc.writer buffer with
  | (w', Except.error e) => .err ⟨w', wc.count⟩ e
  | (w', Except.ok size) =>
      if wc.count + size ≤ USIZE_MAX then
        .ok ⟨w', wc.count + size⟩ size
      else
        .fatal ⟨w', wc.count⟩

/-- `WriteCounter::flush`: `self.writer.flush()` — pure delegation. -/
def WriteCounter.flush {ω ε : Type} (m : WriteModel ω ε)
    (wc : WriteCounter ω) : Outcome (WriteCounter ω) ε Unit :=
  match m.flush wc.writer with
  | (w', Except.error e) => .err ⟨w', wc.count⟩ e
  | (w', Except.ok _) => .ok ⟨w', wc.count⟩ ()

/-- Runs a sequence of `ReadCounter.read` calls, one per buffer, and when
every call succeeds returns the final wrapper state together with the
byte counts the calls returned. -/
def runReads {ρ ε : Type} (m : ReadModel ρ ε) :
    ReadCounter ρ → List (List Nat) → Option (ReadCounter ρ × List Nat)
  | rc, [] => some (rc, [])
  | rc, buf :: rest =>
    match ReadCounter.read m rc buf with
    | .ok (rc', _) size =>
        match runReads m rc' rest with
        | some (rcf, sizes) => some (rcf, size :: sizes)
        | none => none
    | _ => none

/-- Runs a sequence of `WriteCounter.write` calls, one per buffer, and
when every call succeeds returns the final wrapper state together with
the byte counts reported written.  (The wrapper returns exactly the
count the wrapped stream reported, so these are the underlying stream's
reported values.) -/
def runWrites {ω ε : Type} (m : WriteModel ω ε) :
    WriteCounter ω → List (List Nat) → Option (WriteCounter ω × List Nat)
  | wc, [] => some (wc, [])
  | wc, buf :: rest =>
    match WriteCounter.write m wc buf with
    | .ok wc' size =>
        match runWrites m wc' rest with
        | some (wcf, sizes) => some (wcf, size :: sizes)
        | none => none
    | _ => none

/-- State-passing rendering of `fn count(&self) -> usize { self.count }`
on `ReadCounter`: the receiver is a shared borrow, so the operation
returns the state it was given alongside the field's value. -/
def ReadCounter.countOp {ρ : Type} (rc : ReadCounter ρ) :
    ReadCounter ρ × Nat := (rc, rc.count)

/-- State-passing rendering of `fn count(&self) -> usize { self.count }`
on `WriteCounter`. -/
def WriteCounter.countOp {ω : Type} (wc : WriteCounter ω) :
    WriteCounter ω × Nat := (wc, wc.count)

/-- Instruments a reader so that its state also records, in order, every
buffer a `read` call was handed.  Used to state how often and with what
data the wrapped stream is invoked. -/
def loggingReadModel {ρ ε : Type} (m : ReadModel ρ ε) :
    ReadModel (ρ × List (List Nat)) ε where
  read := fun s buf =>
    match m.read s.1 buf with
    | (r', buf', res) => ((r', s.2 ++ [buf]), buf', res)

/-- Instruments a writer so that its state also records, in order, every
buffer a `write` call was handed. -/
def loggingWriteModel {ω ε : Type} (m : WriteModel ω ε) :
    WriteModel (ω × List (List Nat)) ε where
  write := fun s buf =>
    match m.write s.1 buf with
    | (w', res) => ((w', s.2 ++ [buf]), res)
  flush := fun s =>
    match m.flush s.1 with
    | (w', res) => ((w', s.2), res)

/-- `impl Read for &[u8]`: copies `min (buffer length) (data length)`
bytes into the front of the buffer and advances past them.  Concrete
model used for witnesses (it is the reader of the crate's own test). -/
def listReader : ReadModel (List Nat) Unit where
  read := fun data buf =>
    let n := min buf.length data.length
    (data.drop n, data.take n ++ buf.drop n, Except.ok n)

/-- `impl Write for Vec<u8>`: appends the whole buffer and reports its
length; flush is a no-op.  Concrete model used for witnesses. -/
def vecWriter : WriteModel (List Nat) Unit where
  write := fun sink buf => (sink ++ buf, Except.ok buf.length)
  flush := fun sink => (sink, Except.ok ())

/-- A reader whose `read` always fails, leaving the buffer alone. -/
def errReader : ReadModel Unit Unit where
  read := fun s buf => (s, buf, Except.error ())

/-- A writer whose `write` and `flush` always fail. -/
def errWriter : WriteModel Unit Unit where
  write := fun s _ => (s, Except.error ())
  flush := fun s => (s, Except.error ())

/-- A reader that claims to have read `usize::max_value() + 1` bytes in
one call; used to exhibit the counter-overflow fault. -/
def hugeReader : ReadModel Unit Unit where
  read := fun s buf => (s, buf, Except.ok (USIZE_MAX + 1))

/-- A writer that claims to have written `usize::max_value() + 1` bytes
in one call. -/
def hugeWriter : WriteModel Unit Unit where
  write := fun s _ => (s, Except.ok (USIZE_MAX + 1))
  flush := fun s => (s, Except.ok ())

/-! ## Helper lemmas -/

/-- If a single `ReadCounter.read` succeeds, the resulting count is the
previous count plus the returned size. -/
theorem read_ok_count {ρ ε : Type} {m : ReadModel ρ ε} {rc rc' : ReadCounter ρ}
    {buf buf' : List Nat} {size : Nat}
    (h : ReadCounter.read m rc buf = .ok (rc', buf') size) :
    rc'.count = rc.count + size := by
  unfold ReadCounter.read at h
  split at h
  · simp at h
  · split at h
    · obtain ⟨h1, h2⟩ := Outcome.ok.inj h
      obtain ⟨h3, _⟩ := Prod.mk.inj h1
      subst h2
      rw [← h3]
    · simp at h

/-- If a single `WriteCounter.write` succeeds, the resulting count is the
previous count plus the returned size. -/
theorem write_ok_count {ω ε : Type} {m : WriteModel ω ε} {wc wc' : WriteCounter ω}
    {buf : List Nat} {size : Nat}
    (h : WriteCounter.write m wc buf = .ok wc' size) :
    wc'.count = wc.count + size := by
  unfold WriteCounter.write at h
  split at h
  · simp at h
  · split at h
    · obtain ⟨h1, h2⟩ := Outcome.ok.inj h
      subst h2
      rw [← h1]
    · simp at h

/-- Along any all-successful run of reads, the final count is the initial
count plus the sum of the returned sizes. -/
theorem runReads_count {ρ ε : Type} (m : ReadModel ρ ε) :
    ∀ (bufs : List (List Nat)) (rc rcf : ReadCounter ρ) (sizes : List Nat),
      runReads m rc bufs = some (rcf, sizes) →
      rcf.count = rc.count + sizes.sum := by
  intro bufs
  induction bufs with
  | nil =>
    intro rc rcf sizes h
    simp only [runReads, Option.some.injEq, Prod.mk.injEq] at h
    rw [← h.1, ← h.2]
    simp
  | cons buf rest ih =>
    intro rc rcf sizes h
    simp only [runReads] at h
    split at h
    · rename_i rc' bufx size heq
      split at h
      · rename_i rcfx sizesx hrun
        obtain ⟨h1, h2⟩ := Prod.mk.inj (Option.some.inj h)
        have hstep : rc'.count = rc.count + size := read_ok_count heq
        have htail := ih rc' rcfx sizesx hrun
        rw [← h1, ← h2, htail, hstep, List.sum_cons, Nat.add_assoc]
      · simp at h
    · simp at h

/-- Along any all-successful run of writes, the final count is the
initial count plus the sum of the reported sizes. -/
theorem runWrites_count {ω ε : Type} (m : WriteModel ω ε) :
    ∀ (bufs : List (List Nat)) (wc wcf : WriteCounter ω) (sizes : List Nat),
      runWrites m wc bufs = some (wcf, sizes) →
      wcf.count = wc.count + sizes.sum := by
  intro bufs
  induction bufs with
  | nil =>
    intro wc wcf sizes h
    simp only [runWrites, Option.some.injEq, Prod.mk.injEq] at h
    rw [← h.1, ← h.2]
    simp
  | cons buf rest ih =>
    intro wc wcf sizes h
    simp only [runWrites] at h
    split at h
    · rename_i wc' size heq
      split at h
      · rename_i wcfx sizesx hrun
        obtain ⟨h1, h2⟩ := Prod.mk.inj (Option.some.inj h)
        have hstep : wc'.count = wc.count + size := write_ok_count heq
        have htail := ih wc' wcfx sizesx hrun
        rw [← h1, ← h2, htail, hstep, List.sum_cons, Nat.add_assoc]
      · simp at h
    · simp at h

/-! ## Claim theorems -/

/-- C1: for every sequence of n successful calls to `ReadCounter.read`
returning byte counts b1..bn, `count()` after the nth call equals
b1 + ... + bn. -/
theorem read_count_sum {ρ ε : Type} (m : ReadModel ρ ε) (r : ρ)
    (bufs : List (List Nat)) (rcf : ReadCounter ρ) (sizes : List Nat)
    (h : runReads m (ReadCounter.fromRef r) bufs = some (rcf, sizes)) :
    Counter.count rcf = sizes.sum := by
  have h2 := runReads_count m bufs (ReadCounter.fromRef r) rcf sizes h
  simp only [ReadCounter.fromRef, Nat.zero_add] at h2
  exact h2

/-- C1 witness: reading `[1, 2, 3]` one byte at a time (the crate's own
test scenario) gives count 3 = 1 + 1 + 1. -/
theorem read_count_sum_witness :
    Counter.count (⟨[], 3⟩ : ReadCounter (List Nat)) = List.sum [1, 1, 1] :=
  read_count_sum listReader [1, 2, 3] [[0], [0], [0]] ⟨[], 3⟩ [1, 1, 1]
    (by decide)

/-- C2: for every sequence of successful calls to `WriteCounter.write`,
`count()` equals the cumulative sum of the bytes-written values reported
by the underlying stream (which the wrapper returns unchanged) across
those calls. -/
theorem write_count_sum {ω ε : Type} (m : WriteModel ω ε) (w : ω)
    (bufs : List (List Nat)) (wcf : WriteCounter ω) (sizes : List Nat)
    (h : runWrites m (WriteCounter.fromRef w) bufs = some (wcf, sizes)) :
    Counter.count wcf = sizes.sum := by
  have h2 := runWrites_count m bufs (WriteCounter.fromRef w) wcf sizes h
  simp only [WriteCounter.fromRef, Nat.zero_add] at h2
  exact h2

/-- C2 witness: writing `[1]`, `[2]`, `[3]` into an empty sink gives
count 3 = 1 + 1 + 1, the sink's reported sizes. -/
theorem write_count_sum_witness :
    Counter.count (⟨[1, 2, 3], 3⟩ : WriteCounter (List Nat)) = List.sum [1, 1, 1] :=
  write_count_sum vecWriter [] [[1], [2], [3]] ⟨[1, 2, 3], 3⟩ [1, 1, 1]
    (by decide)

/-- C4: a `ReadCounter` or `WriteCounter` freshly constructed via `From`
has `count()` equal to 0 before any operation. -/
theorem fresh_count_zero {ρ ω : Type} (r : ρ) (w : ω) :
    Counter.count (ReadCounter.fromRef r) = 0 ∧
    Counter.count (WriteCounter.fromRef w) = 0 :=
  ⟨rfl, rfl⟩

/-- C3: when the wrapped stream's read/write fails, the wrapper returns
that same error value unchanged and `count()` is unchanged from its
value before the call. -/
theorem error_passthrough {ρ ω ε : Type}
    (mr : ReadModel ρ ε) (rc : ReadCounter ρ) (buf : List Nat)
    (mw : WriteModel ω ε) (wc : WriteCounter ω) (bufw : List Nat) :
    (∀ r' buf' e, mr.read rc.reader buf = (r', buf', Except.error e) →
      ReadCounter.read mr rc buf = Outcome.err (⟨r', rc.count⟩, buf') e ∧
      Counter.count (ReadCounter.read mr rc buf).state.1 = Counter.count rc) ∧
    (∀ w' e, mw.write wc.writer bufw = (w', Except.error e) →
      WriteCounter.write mw wc bufw = Outcome.err ⟨w', wc.count⟩ e ∧
      Counter.count (WriteCounter.write mw wc bufw).state = Counter.count wc) := by
  constructor
  · intro r' buf' e h
    have heq : ReadCounter.read mr rc buf = Outcome.err (⟨r', rc.count⟩, buf') e := by
      unfold ReadCounter.read
      rw [h]
    exact ⟨heq, by rw [heq]; rfl⟩
  · intro w' e h
    have heq : WriteCounter.write mw wc bufw = Outcome.err ⟨w', wc.count⟩ e := by
      unfold WriteCounter.write
      rw [h]
    exact ⟨heq, by rw [heq]; rfl⟩

/-- C3 witness: against always-failing streams, a read of `[5]` and a
write of `[7]` each return the stream's error and leave the count at 0. -/
theorem error_passthrough_witness :
    ReadCounter.read errReader ⟨(), 0⟩ [5] = Outcome.err (⟨(), 0⟩, [5]) () ∧
    WriteCounter.write errWriter ⟨(), 0⟩ [7] = Outcome.err ⟨(), 0⟩ () :=
  ⟨((error_passthrough errReader ⟨(), 0⟩ [5] errWriter ⟨(), 0⟩ [7]).1
      () [5] () rfl).1,
   ((error_passthrough errReader ⟨(), 0⟩ [5] errWriter ⟨(), 0⟩ [7]).2
      () () rfl).1⟩

/-- C5: when a successful read or write would push the accumulated count
past `usize::max_value()`, the wrapper's `self.count += size` is a fatal
fault (the documented panic), not a silent wrap-around. -/
theorem overflow_fatal {ρ ω ε : Type}
    (mr : ReadModel ρ ε) (rc : ReadCounter ρ) (buf : List Nat)
    (mw : WriteModel ω ε) (wc : WriteCounter ω) (bufw : List Nat) :
    (∀ r' buf' size, mr.read rc.reader buf = (r', buf', Except.ok size) →
      USIZE_MAX < rc.count + size →
      ReadCounter.read mr rc buf = Outcome.fatal (⟨r', rc.count⟩, buf')) ∧
    (∀ w' size, mw.write wc.writer bufw = (w', Except.ok size) →
      USIZE_MAX < wc.count + size →
      WriteCounter.write mw wc bufw = Outcome.fatal ⟨w', wc.count⟩) := by
  constructor
  · intro r' buf' size h hlt
    unfold ReadCounter.read
    rw [h]
    exact if_neg (Nat.not_le.mpr hlt)
  · intro w' size h hlt
    unfold WriteCounter.write
    rw [h]
    exact if_neg (Nat.not_le.mpr hlt)

/-- C5 witness: a stream reporting `usize::max_value() + 1` bytes in one
call drives a fresh counter past the maximum, and the operation is
fatal. -/
theorem overflow_fatal_witness :
    ReadCounter.read hugeReader ⟨(), 0⟩ [] = Outcome.fatal (⟨(), 0⟩, []) ∧
    WriteCounter.write hugeWriter ⟨(), 0⟩ [] = Outcome.fatal ⟨(), 0⟩ :=
  ⟨(overflow_fatal hugeReader ⟨(), 0⟩ [] hugeWriter ⟨(), 0⟩ []).1
      () [] (USIZE_MAX + 1) rfl (by decide),
   (overflow_fatal hugeReader ⟨(), 0⟩ [] hugeWriter ⟨(), 0⟩ []).2
      () (USIZE_MAX + 1) rfl (by decide)⟩

/-- C6: `WriteCounter.flush` performs exactly the wrapped stream's flush,
returns its result (success or error) unchanged, and leaves `count()`
unchanged in every case. -/
theorem flush_delegates {ω ε : Type} (m : WriteModel ω ε)
    (wc : WriteCounter ω) :
    (∀ w', m.flush wc.writer = (w', Except.ok ()) →
      WriteCounter.flush m wc = Outcome.ok ⟨w', wc.count⟩ ()) ∧
    (∀ w' e, m.flush wc.writer = (w', Except.error e) →
      WriteCounter.flush m wc = Outcome.err ⟨w', wc.count⟩ e) ∧
    Counter.count (WriteCounter.flush m wc).state = Counter.count wc := by
  refine ⟨?_, ?_, ?_⟩
  · intro w' h
    unfold WriteCounter.flush
    rw [h]
  · intro w' e h
    unfold WriteCounter.flush
    rw [h]
  · unfold WriteCounter.flush
    rcases hm : m.flush wc.writer with ⟨w', res⟩
    cases res with
    | error e => rfl
    | ok u => rfl

/-- C6 witness: flushing through a sink writer succeeds unchanged, and
through an always-failing writer returns its error; count stays 0. -/
theorem flush_delegates_witness :
    WriteCounter.flush vecWriter ⟨[4], 0⟩ = Outcome.ok ⟨[4], 0⟩ () ∧
    WriteCounter.flush errWriter ⟨(), 0⟩ = Outcome.err ⟨(), 0⟩ () :=
  ⟨(flush_delegates vecWriter ⟨[4], 0⟩).1 [4] rfl,
   (flush_delegates errWriter ⟨(), 0⟩).2.1 () () rfl⟩

/-- Whatever the outcome, the reader state left by `ReadCounter.read` is
exactly the state the wrapped reader's single `read` call produced, and
the buffer left behind is exactly the contents that call produced. -/
theorem read_state_eq {ρ ε : Type} (m : ReadModel ρ ε) (rc : ReadCounter ρ)
    (buf : List Nat) :
    (ReadCounter.read m rc buf).state.1.reader = (m.read rc.reader buf).1 ∧
    (ReadCounter.read m rc buf).state.2 = (m.read rc.reader buf).2.1 := by
  unfold ReadCounter.read
  constructor
  · split
    · rename_i r' buf' e heq
      rw [heq]; rfl
    · rename_i r' buf' size heq
      split
      · rw [heq]; rfl
      · rw [heq]; rfl
  · split
    · rename_i r' buf' e heq
      rw [heq]; rfl
    · rename_i r' buf' size heq
      split
      · rw [heq]; rfl
      · rw [heq]; rfl

/-- Whatever the outcome, the writer state left by `WriteCounter.write`
is exactly the state the wrapped writer's single `write` call
produced. -/
theorem write_state_eq {ω ε : Type} (m : WriteModel ω ε)
    (wc : WriteCounter ω) (buf : List Nat) :
    (WriteCounter.write m wc buf).state.writer = (m.write wc.writer buf).1 := by
  unfold WriteCounter.write
  split
  · rename_i w' e heq
    rw [heq]; rfl
  · rename_i w' size heq
    split
    · rw [heq]; rfl
    · rw [heq]; rfl

/-- C7: the wrapper alters no data.  On a successful read the buffer the
caller sees and the size returned are exactly those the wrapped reader
produced; on write the buffer handed to the wrapped writer is
byte-for-byte the caller's buffer (witnessed by the logging
instrumentation), and on success the wrapper returns the size the
wrapped writer reported. -/
theorem data_passthrough {ρ ω ε : Type}
    (mr : ReadModel ρ ε) (rc : ReadCounter ρ) (buf : List Nat)
    (mw : WriteModel ω ε) (w : ω) (log : List (List Nat)) (c : Nat)
    (bufw : List Nat) :
    (∀ r' buf' size, mr.read rc.reader buf = (r', buf', Except.ok size) →
      rc.count + size ≤ USIZE_MAX →
      ReadCounter.read mr rc buf =
        Outcome.ok (⟨r', rc.count + size⟩, buf') size) ∧
    ((WriteCounter.write (loggingWriteModel mw) ⟨(w, log), c⟩ bufw).state.writer).2
      = log ++ [bufw] ∧
    (∀ w' size, mw.write w bufw = (w', Except.ok size) →
      c + size ≤ USIZE_MAX →
      WriteCounter.write mw ⟨w, c⟩ bufw = Outcome.ok ⟨w', c + size⟩ size) := by
  refine ⟨?_, ?_, ?_⟩
  · intro r' buf' size h hle
    unfold ReadCounter.read
    rw [h]
    exact if_pos hle
  · rw [write_state_eq]
    show ((loggingWriteModel mw).write (w, log) bufw).1.2 = log ++ [bufw]
    unfold loggingWriteModel
    rcases hm : mw.write w bufw with ⟨w', res⟩
    simp only [hm]
  · intro w' size h hle
    unfold WriteCounter.write
    rw [h]
    exact if_pos hle

/-- C7 witness: reading one byte of `[1, 2, 3]` hands the caller exactly
the byte `1` and the size 1; a write of `[7]` is handed on verbatim
(logged as `[[7]]`) and its reported size 1 is returned. -/
theorem data_passthrough_witness :
    ReadCounter.read listReader ⟨[1, 2, 3], 0⟩ [0] =
      Outcome.ok (⟨[2, 3], 1⟩, [1]) 1 ∧
    ((WriteCounter.write (loggingWriteModel vecWriter)
        ⟨(([] : List Nat), ([] : List (List Nat))), 0⟩ [7]).state.writer).2
      = [] ++ [[7]] ∧
    WriteCounter.write vecWriter ⟨[], 0⟩ [7] = Outcome.ok ⟨[7], 1⟩ 1 :=
  ⟨(data_passthrough listReader ⟨[1, 2, 3], 0⟩ [0] vecWriter [] [] 0 [7]).1
      [2, 3] [1] 1 rfl (by decide),
   (data_passthrough listReader ⟨[1, 2, 3], 0⟩ [0] vecWriter [] [] 0 [7]).2.1,
   (data_passthrough listReader ⟨[1, 2, 3], 0⟩ [0] vecWriter [] [] 0 [7]).2.2
      [7] 1 rfl (by decide)⟩

/-- C8: `count()` is monotonically non-decreasing: whatever the outcome
(success, error, or the overflow fault) of a read, write or flush, the
count in the state the operation leaves behind is at least the count
before the call (and `count()` itself performs no mutation at all). -/
theorem count_monotone {ρ ω ε : Type}
    (mr : ReadModel ρ ε) (rc : ReadCounter ρ) (buf : List Nat)
    (mw : WriteModel ω ε) (wc : WriteCounter ω) (bufw : List Nat) :
    Counter.count rc ≤ Counter.count (ReadCounter.read mr rc buf).state.1 ∧
    Counter.count wc ≤ Counter.count (WriteCounter.write mw wc bufw).state ∧
    Counter.count wc ≤ Counter.count (WriteCounter.flush mw wc).state := by
  refine ⟨?_, ?_, ?_⟩
  · unfold ReadCounter.read
    split
    · exact Nat.le_refl _
    · split
      · exact Nat.le_add_right _ _
      · exact Nat.le_refl _
  · unfold WriteCounter.write
    split
    · exact Nat.le_refl _
    · split
      · exact Nat.le_add_right _ _
      · exact Nat.le_refl _
  · unfold WriteCounter.flush
    split
    · exact Nat.le_refl _
    · exact Nat.le_refl _

/-- C9: each `read`/`write` call invokes the wrapped stream's operation
exactly once — under the logging instrumentation the call log grows by
exactly one entry, the caller's buffer, whatever the outcome — and a
failure is returned to the caller immediately: the same error value,
no retry (still one log entry), no count update, no wrapping. -/
theorem underlying_called_once {ρ ω ε : Type}
    (mr : ReadModel ρ ε) (r : ρ) (mw : WriteModel ω ε) (w : ω)
    (log logw : List (List Nat)) (c cw : Nat) (buf bufw : List Nat) :
    ((ReadCounter.read (loggingReadModel mr) ⟨(r, log), c⟩ buf).state.1.reader).2
       = log ++ [buf] ∧
    (∀ r' buf' e, mr.read r buf = (r', buf', Except.error e) →
      ReadCounter.read (loggingReadModel mr) ⟨(r, log), c⟩ buf =
        Outcome.err (⟨(r', log ++ [buf]), c⟩, buf') e) ∧
    ((WriteCounter.write (loggingWriteModel mw) ⟨(w, logw), cw⟩ bufw).state.writer).2
       = logw ++ [bufw] ∧
    (∀ w' e, mw.write w bufw = (w', Except.error e) →
      WriteCounter.write (loggingWriteModel mw) ⟨(w, logw), cw⟩ bufw =
        Outcome.err ⟨(w', logw ++ [bufw]), cw⟩ e) := by
  refine ⟨?_, ?_, ?_, ?_⟩
  · rw [(read_state_eq (loggingReadModel mr) ⟨(r, log), c⟩ buf).1]
    show ((loggingReadModel mr).read (r, log) buf).1.2 = log ++ [buf]
    unfold loggingReadModel
    rcases hm : mr.read r buf with ⟨r', buf', res⟩
    simp only [hm]
  · intro r' buf' e h
    unfold ReadCounter.read loggingReadModel
    simp only [h]
  · rw [write_state_eq]
    show ((loggingWriteModel mw).write (w, logw) bufw).1.2 = logw ++ [bufw]
    unfold loggingWriteModel
    rcases hm : mw.write w bufw with ⟨w', res⟩
    simp only [hm]
  · intro w' e h
    unfold WriteCounter.write loggingWriteModel
    simp only [h]

/-- C9 witness: through the instrumentation, one read and one write each
log exactly one underlying call carrying the caller's buffer, and with
always-failing streams the error comes back unchanged with the count
still 0. -/
theorem underlying_called_once_witness :
    ((ReadCounter.read (loggingReadModel listReader)
        ⟨([1, 2, 3], []), 0⟩ [0]).state.1.reader).2 = [] ++ [[0]] ∧
    ReadCounter.read (loggingReadModel errReader) ⟨((), []), 0⟩ [5] =
      Outcome.err (⟨((), [[5]]), 0⟩, [5]) () ∧
    WriteCounter.write (loggingWriteModel errWriter) ⟨((), []), 0⟩ [7] =
      Outcome.err ⟨((), [[7]]), 0⟩ () :=
  ⟨(underlying_called_once listReader [1, 2, 3] vecWriter [] [] [] 0 0
      [0] []).1,
   (underlying_called_once errReader () errWriter () [] [] 0 0 [5] [7]).2.1
      () [5] () rfl,
   (underlying_called_once errReader () errWriter () [] [] 0 0 [5] [7]).2.2.2
      () () rfl⟩

/-- C10: `count()` has no side effects.  In the state-passing rendering
of the `&self` method it returns its receiver unchanged, so two
consecutive calls agree, and a subsequent read, write or flush behaves
exactly as if `count()` had not been called. -/
theorem count_no_side_effects {ρ ω ε : Type}
    (mr : ReadModel ρ ε) (rc : ReadCounter ρ) (buf : List Nat)
    (mw : WriteModel ω ε) (wc : WriteCounter ω) (bufw : List Nat) :
    (ReadCounter.countOp rc).1 = rc ∧
    (WriteCounter.countOp wc).1 = wc ∧
    ((ReadCounter.countOp rc).1.countOp).2 = (ReadCounter.countOp rc).2 ∧
    ((WriteCounter.countOp wc).1.countOp).2 = (WriteCounter.countOp wc).2 ∧
    ReadCounter.read mr (ReadCounter.countOp rc).1 buf =
      ReadCounter.read mr rc buf ∧
    WriteCounter.write mw (WriteCounter.countOp wc).1 bufw =
      WriteCounter.write mw wc bufw ∧
    WriteCounter.flush mw (WriteCounter.countOp wc).1 =
      WriteCounter.flush mw wc :=
  ⟨rfl, rfl, rfl, rfl, rfl, rfl, rfl⟩
